import Mathlib

/-!
Verification development for the greenhouse-gas dashboard
(`streamlit_app.py`).  Dataframes are modelled as lists of rows; the
Streamlit calls (`st.plotly_chart`, `st.write`, `st.warning`, `st.info`,
`st.error`) are modelled as an output trace; pandas' in-place mutation of
the caller's dataframe is modelled by each draw function returning the
mutated frame alongside its outputs, and `main` threading that state
through the three pipelines.
-/

/-- A parsed calendar date (the result of a successful `pd.to_datetime`). -/
structure Date where
  year : Int
  month : Nat
  day : Nat
deriving DecidableEq, Repr

/-- One dataframe row.  `date` is the `date` column after `pd.to_datetime`
with `errors='coerce'`: `none` models `NaT` (an unparseable date).
`year` models the derived `year` column, absent (`none`) until the draw
functions assign it.  `alt_Mean` and `std_CO2` model the numeric columns
`Alt_Mean` and `std CO2`. -/
structure Row where
  date : Option Date
  alt_Mean : Int
  std_CO2 : Int
  year : Option Int
deriving DecidableEq, Repr

/-- The cleaning prefix shared by all three draw functions
(`streamlit_app.py` lines 83-89, 120-126, 156-163): coerce `date`
(already reflected in the `Option Date` field), drop rows whose date
failed to parse (`dropna(subset=['date'], inplace=True)`), and assign the
derived `year` column (`df['year'] = df['date'].dt.year`). -/
def cleanDf (df : List Row) : List Row :=
  (df.filter (fun r => r.date.isSome)).map
    (fun r => { r with year := r.date.map Date.year })

/-- Chart family used by the renderer: `px.line` or `px.scatter`. -/
inductive ChartKind
  | line
  | scatter
deriving DecidableEq, Repr

/-- The y-axis column handed to the renderer: `Alt_Mean` or `std CO2`. -/
inductive YCol
  | altMean
  | stdCO2
deriving DecidableEq, Repr

/-- A chart specification handed to the external renderer: the rows, the
chart family, the y-axis column and the title (x-axis is always `date`). -/
structure Chart where
  kind : ChartKind
  rows : List Row
  ycol : YCol
  title : String
deriving DecidableEq, Repr

/-- One user-visible output event: a rendered chart (`st.plotly_chart`),
a story (`st.write`), a warning (`st.warning`), an informational message
(`st.info`) or an error message (`st.error`).  `crash` models an uncaught
Python exception (e.g. `datetime` rejecting an out-of-range month). -/
inductive Output
  | chart : Chart → Output
  | story : String → Output
  | warning : String → Output
  | info : String → Output
  | error : String → Output
  | crash : Output
deriving DecidableEq, Repr

/-- Models `st.write(generate_story(...))`: writing the story, or the
uncaught exception when story generation raised. -/
def write_story : Option String → Output
  | some s => Output.story s
  | none => Output.crash

/-- Models `datetime(2000, m, 1).strftime('%B')`: the full English month
name for `m` in 1..12, `none` for the `ValueError` raised otherwise. -/
def monthName (m : Nat) : Option String :=
  match m with
  | 1 => some "January"
  | 2 => some "February"
  | 3 => some "March"
  | 4 => some "April"
  | 5 => some "May"
  | 6 => some "June"
  | 7 => some "July"
  | 8 => some "August"
  | 9 => some "September"
  | 10 => some "October"
  | 11 => some "November"
  | 12 => some "December"
  | _ => none

/-- Models the `story_type` selection in `generate_story` (lines 54-62):
the chart-kind label from the `chart_type` argument. -/
def story_type_of (chart_type : Option String) : String :=
  if chart_type == some "line" then "Line Chart"
  else if chart_type == some "scatter" then "Scatter Plot"
  else if chart_type == some "std_scatter" then "Standard Deviation Scatter Plot"
  else "Data Overview"

/-- Models `generate_story` (lines 49-78).  Python's truthiness tests
`if selected_year and selected_month` / `elif selected_year` are rendered
faithfully: `None` and `0` are falsy for an optional integer.  The result
is `none` exactly when the `datetime` call raises (month outside 1..12);
the third branch concatenates a non-f-string literal, so its
`{gas_name}` placeholder stays unsubstituted, as in the source. -/
def generate_story (df : List Row) (selected_gas : String)
    (selected_year : Option Int) (selected_month : Option Nat)
    (chart_type : Option String) : Option String :=
  let total_rows := df.length
  let gas_name := selected_gas.toUpper
  let story_type := story_type_of chart_type
  let year_story : Int → String := fun y =>
    "The " ++ story_type ++ " highlights the " ++ gas_name ++
    " levels recorded in " ++ toString y ++ ". There are " ++
    toString total_rows ++ " data points representing " ++ gas_name ++
    " concentration changes over the year. This visualization captures the yearly fluctuation and trends in gas concentration."
  let no_filter_story : String :=
    "The " ++ story_type ++ " covers the full dataset with " ++
    toString total_rows ++ " records for " ++ gas_name ++
    ". This chart provides a comprehensive overview of {gas_name} concentrations over the entire recorded period, allowing us to observe both seasonal and longer-term trends."
  match selected_year, selected_month with
  | some y, some m =>
      if y ≠ 0 ∧ m ≠ 0 then
        (monthName m).map (fun month_name =>
          "The " ++ story_type ++ " represents the concentration of " ++
          gas_name ++ " during " ++ month_name ++ " " ++ toString y ++
          ". The dataset contains " ++ toString total_rows ++
          " data points for this time period, showing how the concentration of " ++
          gas_name ++ " varied across this month.")
      else if y ≠ 0 then some (year_story y)
      else some no_filter_story
  | some y, none =>
      if y ≠ 0 then some (year_story y) else some no_filter_story
  | none, _ => some no_filter_story

/-- Models `draw_time_series` (lines 80-115): clean the frame in place,
then branch on the selections; the combined year-and-month branch charts
`std CO2` (line 111), the other branches chart `Alt_Mean`.  Returns the
output trace and the mutated dataframe. -/
def draw_time_series (df0 : List Row) (selected_gas : String)
    (selected_year : Option Int) (selected_month : Option Nat) :
    List Output × List Row :=
  let df := cleanDf df0
  match selected_year, selected_month with
  | none, none =>
      ([Output.chart ⟨ChartKind.line, df, YCol.altMean,
          "Full Dataset: Alt_Mean Over Time"⟩,
        write_story (generate_story df selected_gas none none (some "line"))],
       df)
  | some y, none =>
      let filtered_df := df.filter (fun r => r.year == some y)
      if !filtered_df.isEmpty then
        ([Output.chart ⟨ChartKind.line, filtered_df, YCol.altMean,
            "Alt_Mean Over Time in " ++ toString y⟩,
          write_story (generate_story filtered_df selected_gas (some y) none
            (some "line"))],
         df)
      else
        ([Output.warning "No data available for the selected year."], df)
  | some y, some m =>
      let filtered_df := df.filter
        (fun r => r.year == some y && r.date.map Date.month == some m)
      if !filtered_df.isEmpty then
        ([Output.chart ⟨ChartKind.line, filtered_df, YCol.stdCO2,
            "Standard Deviation of CO2 in " ++ toString m ++ " " ++ toString y⟩,
          write_story (generate_story filtered_df selected_gas (some y) (some m)
            (some "line"))],
         df)
      else
        ([Output.warning "No data available for the selected month and year."], df)
  | none, some _ => ([], df)

/-- Models `draw_scatter_plot` (lines 117-152): same structure as the time
series, `px.scatter` with `Alt_Mean` in every branch. -/
def draw_scatter_plot (df0 : List Row) (selected_gas : String)
    (selected_year : Option Int) (selected_month : Option Nat) :
    List Output × List Row :=
  let df := cleanDf df0
  match selected_year, selected_month with
  | none, none =>
      ([Output.chart ⟨ChartKind.scatter, df, YCol.altMean,
          "Full Dataset: Alt_Mean Over Time"⟩,
        write_story (generate_story df selected_gas none none (some "scatter"))],
       df)
  | some y, none =>
      let filtered_df := df.filter (fun r => r.year == some y)
      if !filtered_df.isEmpty then
        ([Output.chart ⟨ChartKind.scatter, filtered_df, YCol.altMean,
            "Alt_Mean Over Time in " ++ toString y⟩,
          write_story (generate_story filtered_df selected_gas (some y) none
            (some "scatter"))],
         df)
      else
        ([Output.warning "No data available for the selected year."], df)
  | some y, some m =>
      let filtered_df := df.filter
        (fun r => r.year == some y && r.date.map Date.month == some m)
      if !filtered_df.isEmpty then
        ([Output.chart ⟨ChartKind.scatter, filtered_df, YCol.altMean,
            "Alt_Mean Over Time in " ++ toString m ++ " " ++ toString y⟩,
          write_story (generate_story filtered_df selected_gas (some y) (some m)
            (some "scatter"))],
         df)
      else
        ([Output.warning "No data available for the selected month and year."], df)
  | none, some _ => ([], df)

/-- Models `draw_std_co2_scatter_plot` (lines 154-189): same structure,
`px.scatter` with `std CO2` in every branch. -/
def draw_std_co2_scatter_plot (df0 : List Row) (selected_gas : String)
    (selected_year : Option Int) (selected_month : Option Nat) :
    List Output × List Row :=
  let df := cleanDf df0
  match selected_year, selected_month with
  | none, none =>
      ([Output.chart ⟨ChartKind.scatter, df, YCol.stdCO2,
          "Full Dataset: std CO2 Over Time"⟩,
        write_story (generate_story df selected_gas none none (some "std_scatter"))],
       df)
  | some y, none =>
      let filtered_df := df.filter (fun r => r.year == some y)
      if !filtered_df.isEmpty then
        ([Output.chart ⟨ChartKind.scatter, filtered_df, YCol.stdCO2,
            "std CO2 Over Time in " ++ toString y⟩,
          write_story (generate_story filtered_df selected_gas (some y) none
            (some "std_scatter"))],
         df)
      else
        ([Output.warning "No data available for the selected year."], df)
  | some y, some m =>
      let filtered_df := df.filter
        (fun r => r.year == some y && r.date.map Date.month == some m)
      if !filtered_df.isEmpty then
        ([Output.chart ⟨ChartKind.scatter, filtered_df, YCol.stdCO2,
            "std CO2 Over Time in " ++ toString m ++ " " ++ toString y⟩,
          write_story (generate_story filtered_df selected_gas (some y) (some m)
            (some "std_scatter"))],
         df)
      else
        ([Output.warning "No data available for the selected month and year."], df)
  | none, some _ => ([], df)

/-- Models Python's `str.lower()` on the widget's ASCII option strings:
lowercase every character. -/
def py_lower (s : String) : String :=
  ⟨s.data.map Char.toLower⟩

/-- Models `select_gas` (lines 7-13): the chosen option, lowercased. -/
def select_gas (choice : String) : String :=
  py_lower choice

/-- Models the `month_dict` table of `select_month` (lines 29-33). -/
def month_dict : List (String × Nat) :=
  [("Jan", 1), ("Feb", 2), ("Mar", 3), ("Apr", 4),
   ("May", 5), ("Jun", 6), ("Jul", 7), ("Aug", 8),
   ("Sep", 9), ("Oct", 10), ("Nov", 11), ("Dec", 12)]

/-- Models `select_month` (lines 23-34): `month_dict.get(choice, None)`,
so the placeholder (or anything else outside the table) yields `none`. -/
def select_month (choice : String) : Option Nat :=
  month_dict.lookup choice

/-- Models `get_data_source` (lines 36-47).  The filesystem is a map from
paths to datasets; `none` models `FileNotFoundError`.  Returns the error
trace and the optional dataframe. -/
def get_data_source (files : String → Option (List Row))
    (selected_gas : String) : List Output × Option (List Row) :=
  let file_path := "data/" ++ selected_gas ++ ".csv"
  if selected_gas == "select gas" then ([], none)
  else
    match files file_path with
    | some df => ([], some df)
    | none => ([Output.error ("No file found for " ++ selected_gas)], none)

/-- Models `main` (lines 191-208): normalize the gas choice, short-circuit
on the placeholder, retrieve the dataset and run the three pipelines in
sequence, each receiving the dataframe as left (mutated) by the previous
one.  (`st.title` and the selector widgets themselves are UI layout,
outside the model; the year selector's enumerated values are passed in
directly as `selected_year`.) -/
def main_app (files : String → Option (List Row)) (gasChoice : String)
    (selected_year : Option Int) (monthChoice : String) : List Output :=
  let selected_gas := select_gas gasChoice
  let selected_month := select_month monthChoice
  if selected_gas == "select gas" then
    [Output.info "Please select a gas to start."]
  else
    let res := get_data_source files selected_gas
    match res.2 with
    | none => res.1
    | some df =>
        let r1 := draw_time_series df selected_gas selected_year selected_month
        let r2 := draw_scatter_plot r1.2 selected_gas selected_year selected_month
        let r3 := draw_std_co2_scatter_plot r2.2 selected_gas selected_year
          selected_month
        res.1 ++ r1.1 ++ r2.1 ++ r3.1

/-- Spec-side row predicate, from the spec's words: the row's date parses
successfully, its derived year equals the selected year when one is
selected, and its parsed-date month equals the selected month when one is
selected. -/
def dateMatches (selected_year : Option Int) (selected_month : Option Nat)
    (r : Row) : Bool :=
  match r.date with
  | none => false
  | some d =>
      (match selected_year with
       | none => true
       | some y => d.year == y) &&
      (match selected_month with
       | none => true
       | some m => d.month == m)

/-- Spec-side filtered row set: the cleaned rows matching the selection. -/
def specFiltered (df : List Row) (selected_year : Option Int)
    (selected_month : Option Nat) : List Row :=
  (cleanDf df).filter (dateMatches selected_year selected_month)

/-- The row sets of the charts appearing in an output trace, in order. -/
def chartRowsOf (out : List Output) : List (List Row) :=
  out.filterMap (fun o => match o with
    | Output.chart c => some c.rows
    | _ => none)

/-- Spec-side prediction of the charted row sets of one pipeline run:
with no filters the full cleaned dataset is charted; with a year (and
possibly month) selection the matching rows are charted unless empty;
with a month but no year nothing is charted. -/
def chartedSpec (df : List Row) (selected_year : Option Int)
    (selected_month : Option Nat) : List (List Row) :=
  match selected_year, selected_month with
  | none, none => [specFiltered df none none]
  | none, some _ => []
  | some _, _ =>
      if (specFiltered df selected_year selected_month).isEmpty then []
      else [specFiltered df selected_year selected_month]

/-! ### Helper lemmas -/

/-- Every row of a cleaned dataframe carries a parsed date, and its `year`
column equals the year of that date. -/
theorem mem_cleanDf {r : Row} {df : List Row} (h : r ∈ cleanDf df) :
    ∃ d : Date, r.date = some d ∧ r.year = some d.year := by
  simp only [cleanDf, List.mem_map, List.mem_filter] at h
  obtain ⟨s, ⟨hs, hsome⟩, rfl⟩ := h
  cases hd : s.date with
  | none => rw [hd] at hsome; simp at hsome
  | some d => exact ⟨d, by simp [hd]⟩

/-- With no filters selected, the spec-side row set is the whole cleaned
dataframe. -/
theorem specFiltered_none_none (df : List Row) :
    specFiltered df none none = cleanDf df := by
  rw [specFiltered, List.filter_eq_self]
  intro r hr
  obtain ⟨d, hd, _⟩ := mem_cleanDf hr
  simp [dateMatches, hd]

/-- The code's year-column filter agrees with the spec-side date-derived
filter on a cleaned dataframe. -/
theorem filter_year_eq_spec (df : List Row) (y : Int) :
    (cleanDf df).filter (fun r => r.year == some y) =
      specFiltered df (some y) none := by
  rw [specFiltered]
  apply List.filter_congr
  intro r hr
  obtain ⟨d, hd, hy⟩ := mem_cleanDf hr
  simp [dateMatches, hd, hy]

/-- The code's combined year-and-month filter agrees with the spec-side
date-derived filter on a cleaned dataframe. -/
theorem filter_year_month_eq_spec (df : List Row) (y : Int) (m : Nat) :
    (cleanDf df).filter
        (fun r => r.year == some y && r.date.map Date.month == some m) =
      specFiltered df (some y) (some m) := by
  rw [specFiltered]
  apply List.filter_congr
  intro r hr
  obtain ⟨d, hd, hy⟩ := mem_cleanDf hr
  simp [dateMatches, hd, hy]

theorem chartRowsOf_write_story (s : Option String) (rest : List Output) :
    chartRowsOf (write_story s :: rest) = chartRowsOf rest := by
  cases s <;> rfl

theorem chartRowsOf_chart (c : Chart) (rest : List Output) :
    chartRowsOf (Output.chart c :: rest) = c.rows :: chartRowsOf rest := rfl

theorem chartRowsOf_warning (s : String) (rest : List Output) :
    chartRowsOf (Output.warning s :: rest) = chartRowsOf rest := rfl

theorem chartRowsOf_nil : chartRowsOf [] = [] := rfl

theorem write_story_ne_chart (s : Option String) (c : Chart) :
    write_story s ≠ Output.chart c := by
  cases s <;> simp [write_story]

/-- A chart appearing in a chart-then-story trace is the chart of that
trace. -/
theorem chart_mem_pair {c c0 : Chart} {s : Option String}
    (h : Output.chart c ∈ [Output.chart c0, write_story s]) : c = c0 := by
  rcases List.mem_cons.1 h with h1 | h1
  · injection h1
  · simp only [List.mem_singleton] at h1
    exact absurd h1.symm (write_story_ne_chart _ _)

/-- If no cleaned row has the selected year, the year filter is empty. -/
theorem filter_year_nil {df : List Row} {y : Int}
    (h : ∀ r ∈ cleanDf df, r.year ≠ some y) :
    (cleanDf df).filter (fun r => r.year == some y) = [] := by
  rw [List.filter_eq_nil_iff]
  intro r hr
  simpa using h r hr

/-- If no cleaned row has the selected year, the combined year-and-month
filter is empty as well. -/
theorem filter_year_month_nil {df : List Row} {y : Int} (m : Nat)
    (h : ∀ r ∈ cleanDf df, r.year ≠ some y) :
    (cleanDf df).filter
      (fun r => r.year == some y && r.date.map Date.month == some m) = [] := by
  rw [List.filter_eq_nil_iff]
  intro r hr
  simp [h r hr]

/-- Cleaning an already-cleaned dataframe changes nothing. -/
theorem cleanDf_idem (df : List Row) : cleanDf (cleanDf df) = cleanDf df := by
  induction df with
  | nil => rfl
  | cons r rs ih =>
    cases hd : r.date with
    | none => simpa [cleanDf, List.filter_cons, hd] using ih
    | some d => simp_all [cleanDf, List.filter_cons, hd]

/-- `monthName` succeeds on every month in 1..12. -/
theorem monthName_isSome_of_le (m : Nat) (h1 : 1 ≤ m) (h2 : m ≤ 12) :
    (monthName m).isSome := by
  have hb : ∀ n, n < 13 → 1 ≤ n → (monthName n).isSome := by decide
  exact hb m (by omega) h1

/-- The month selector only yields table entries, all inside 1..12. -/
theorem select_month_range (choice : String) (m : Nat)
    (h : select_month choice = some m) : 1 ≤ m ∧ m ≤ 12 := by
  simp only [select_month, month_dict, List.lookup] at h
  repeat' split at h
  all_goals simp_all
  all_goals omega

/-- Story generation never raises when the selected month, if any, is at
most 12 (Python truthiness already shields month 0). -/
theorem generate_story_isSome (df : List Row) (gas : String) (y? : Option Int)
    (m? : Option Nat) (ct : Option String)
    (hm : ∀ m, m? = some m → m ≤ 12) :
    (generate_story df gas y? m? ct).isSome := by
  cases y? with
  | none => cases m? <;> simp [generate_story]
  | some y =>
    cases m? with
    | none =>
      simp only [generate_story]
      split <;> simp
    | some m =>
      simp only [generate_story]
      split
      · rename_i hy
        obtain ⟨hy0, hm0⟩ := hy
        simpa using monthName_isSome_of_le m (by omega) (hm m rfl)
      · split <;> simp

theorem write_story_ne_crash {s : Option String} (h : s.isSome) :
    write_story s ≠ Output.crash := by
  cases s with
  | none => simp at h
  | some v => simp [write_story]

/-- The time-series pipeline never emits a crash when the selected month,
if any, is at most 12. -/
theorem draw_ts_no_crash (df : List Row) (gas : String) (y? : Option Int)
    (m? : Option Nat) (hm : ∀ m, m? = some m → m ≤ 12) :
    Output.crash ∉ (draw_time_series df gas y? m?).1 := by
  cases y? <;> cases m? <;> simp only [draw_time_series]
  · intro h
    rcases List.mem_cons.1 h with h1 | h1
    · simp at h1
    · simp only [List.mem_singleton] at h1
      exact write_story_ne_crash (generate_story_isSome _ _ _ _ _ hm) h1.symm
  · simp
  · split
    · intro h
      rcases List.mem_cons.1 h with h1 | h1
      · simp at h1
      · simp only [List.mem_singleton] at h1
        exact write_story_ne_crash (generate_story_isSome _ _ _ _ _ hm) h1.symm
    · simp
  · split
    · intro h
      rcases List.mem_cons.1 h with h1 | h1
      · simp at h1
      · simp only [List.mem_singleton] at h1
        exact write_story_ne_crash (generate_story_isSome _ _ _ _ _ hm) h1.symm
    · simp

/-- The scatter pipeline never emits a crash when the selected month, if
any, is at most 12. -/
theorem draw_sc_no_crash (df : List Row) (gas : String) (y? : Option Int)
    (m? : Option Nat) (hm : ∀ m, m? = some m → m ≤ 12) :
    Output.crash ∉ (draw_scatter_plot df gas y? m?).1 := by
  cases y? <;> cases m? <;> simp only [draw_scatter_plot]
  · intro h
    rcases List.mem_cons.1 h with h1 | h1
    · simp at h1
    · simp only [List.mem_singleton] at h1
      exact write_story_ne_crash (generate_story_isSome _ _ _ _ _ hm) h1.symm
  · simp
  · split
    · intro h
      rcases List.mem_cons.1 h with h1 | h1
      · simp at h1
      · simp only [List.mem_singleton] at h1
        exact write_story_ne_crash (generate_story_isSome _ _ _ _ _ hm) h1.symm
    · simp
  · split
    · intro h
      rcases List.mem_cons.1 h with h1 | h1
      · simp at h1
      · simp only [List.mem_singleton] at h1
        exact write_story_ne_crash (generate_story_isSome _ _ _ _ _ hm) h1.symm
    · simp

/-- The std-CO2 scatter pipeline never emits a crash when the selected
month, if any, is at most 12. -/
theorem draw_std_no_crash (df : List Row) (gas : String) (y? : Option Int)
    (m? : Option Nat) (hm : ∀ m, m? = some m → m ≤ 12) :
    Output.crash ∉ (draw_std_co2_scatter_plot df gas y? m?).1 := by
  cases y? <;> cases m? <;> simp only [draw_std_co2_scatter_plot]
  · intro h
    rcases List.mem_cons.1 h with h1 | h1
    · simp at h1
    · simp only [List.mem_singleton] at h1
      exact write_story_ne_crash (generate_story_isSome _ _ _ _ _ hm) h1.symm
  · simp
  · split
    · intro h
      rcases List.mem_cons.1 h with h1 | h1
      · simp at h1
      · simp only [List.mem_singleton] at h1
        exact write_story_ne_crash (generate_story_isSome _ _ _ _ _ hm) h1.symm
    · simp
  · split
    · intro h
      rcases List.mem_cons.1 h with h1 | h1
      · simp at h1
      · simp only [List.mem_singleton] at h1
        exact write_story_ne_crash (generate_story_isSome _ _ _ _ _ hm) h1.symm
    · simp

theorem get_data_source_no_crash (files : String → Option (List Row))
    (gas : String) : Output.crash ∉ (get_data_source files gas).1 := by
  simp only [get_data_source]
  split
  · simp
  · split <;> simp

/-- The whole dashboard run never emits a crash: the month selector keeps
the `datetime` call inside its domain. -/
theorem main_no_crash (files : String → Option (List Row)) (gc : String)
    (y? : Option Int) (mc : String) :
    Output.crash ∉ main_app files gc y? mc := by
  have hm : ∀ m, select_month mc = some m → m ≤ 12 :=
    fun m h => (select_month_range mc m h).2
  simp only [main_app]
  split
  · simp
  · split
    · exact get_data_source_no_crash files (select_gas gc)
    · intro h
      rcases List.mem_append.1 h with h1 | h1
      · rcases List.mem_append.1 h1 with h2 | h2
        · rcases List.mem_append.1 h2 with h3 | h3
          · exact get_data_source_no_crash files (select_gas gc) h3
          · exact draw_ts_no_crash _ _ _ _ hm h3
        · exact draw_sc_no_crash _ _ _ _ hm h2
      · exact draw_std_no_crash _ _ _ _ hm h1

/-- A concrete dataset used to instantiate theorems with hypotheses: the
spec's worked example (rows dated 2015-01-01, 2015-06-15 and 2016-02-10)
plus one row with an unparseable date. -/
def sampleDf : List Row :=
  [⟨some ⟨2015, 1, 1⟩, 10, 2, none⟩,
   ⟨some ⟨2015, 6, 15⟩, 11, 3, none⟩,
   ⟨some ⟨2016, 2, 10⟩, 12, 4, none⟩,
   ⟨none, 0, 0, none⟩]

/-! ### Claim theorems -/

/-- Claim C1: for every dataset and every valid selection, the charted row
set of each of the three pipelines is exactly the rows whose date parses
successfully and whose derived year equals the selected year (and, when a
month is selected, whose parsed-date month equals the selected month);
with no filters the full cleaned dataset is charted, and with a month but
no year nothing is charted. -/
theorem claim_C1_filtered_rows (df : List Row) (gas : String)
    (y? : Option Int) (m? : Option Nat) :
    chartRowsOf (draw_time_series df gas y? m?).1 = chartedSpec df y? m? ∧
    chartRowsOf (draw_scatter_plot df gas y? m?).1 = chartedSpec df y? m? ∧
    chartRowsOf (draw_std_co2_scatter_plot df gas y? m?).1 =
      chartedSpec df y? m? := by
  refine ⟨?_, ?_, ?_⟩
  · cases y? with
    | none =>
      cases m? with
      | none =>
        simp [draw_time_series, chartedSpec, chartRowsOf_chart,
          chartRowsOf_write_story, chartRowsOf_nil, specFiltered_none_none]
      | some m => rfl
    | some y =>
      cases m? with
      | none =>
        simp only [draw_time_series, chartedSpec, filter_year_eq_spec]
        split
        · simp_all [chartRowsOf_chart, chartRowsOf_write_story,
            chartRowsOf_nil, List.isEmpty_iff]
        · simp_all [chartRowsOf_warning, chartRowsOf_nil, List.isEmpty_iff]
      | some m =>
        simp only [draw_time_series, chartedSpec, filter_year_month_eq_spec]
        split
        · simp_all [chartRowsOf_chart, chartRowsOf_write_story,
            chartRowsOf_nil, List.isEmpty_iff]
        · simp_all [chartRowsOf_warning, chartRowsOf_nil, List.isEmpty_iff]
  · cases y? with
    | none =>
      cases m? with
      | none =>
        simp [draw_scatter_plot, chartedSpec, chartRowsOf_chart,
          chartRowsOf_write_story, chartRowsOf_nil, specFiltered_none_none]
      | some m => rfl
    | some y =>
      cases m? with
      | none =>
        simp only [draw_scatter_plot, chartedSpec, filter_year_eq_spec]
        split
        · simp_all [chartRowsOf_chart, chartRowsOf_write_story,
            chartRowsOf_nil, List.isEmpty_iff]
        · simp_all [chartRowsOf_warning, chartRowsOf_nil, List.isEmpty_iff]
      | some m =>
        simp only [draw_scatter_plot, chartedSpec, filter_year_month_eq_spec]
        split
        · simp_all [chartRowsOf_chart, chartRowsOf_write_story,
            chartRowsOf_nil, List.isEmpty_iff]
        · simp_all [chartRowsOf_warning, chartRowsOf_nil, List.isEmpty_iff]
  · cases y? with
    | none =>
      cases m? with
      | none =>
        simp [draw_std_co2_scatter_plot, chartedSpec, chartRowsOf_chart,
          chartRowsOf_write_story, chartRowsOf_nil, specFiltered_none_none]
      | some m => rfl
    | some y =>
      cases m? with
      | none =>
        simp only [draw_std_co2_scatter_plot, chartedSpec, filter_year_eq_spec]
        split
        · simp_all [chartRowsOf_chart, chartRowsOf_write_story,
            chartRowsOf_nil, List.isEmpty_iff]
        · simp_all [chartRowsOf_warning, chartRowsOf_nil, List.isEmpty_iff]
      | some m =>
        simp only [draw_std_co2_scatter_plot, chartedSpec,
          filter_year_month_eq_spec]
        split
        · simp_all [chartRowsOf_chart, chartRowsOf_write_story,
            chartRowsOf_nil, List.isEmpty_iff]
        · simp_all [chartRowsOf_warning, chartRowsOf_nil, List.isEmpty_iff]

/-- Claim C2: in every pipeline branch that charts rows, the trace also
carries the story generated from exactly the charted dataframe (so the
row count the story reports is the length of the rows handed to the
renderer). -/
theorem claim_C2_story_counts (df : List Row) (gas : String)
    (y? : Option Int) (m? : Option Nat) :
    (∀ c : Chart, Output.chart c ∈ (draw_time_series df gas y? m?).1 →
      write_story (generate_story c.rows gas y? m? (some "line")) ∈
        (draw_time_series df gas y? m?).1) ∧
    (∀ c : Chart, Output.chart c ∈ (draw_scatter_plot df gas y? m?).1 →
      write_story (generate_story c.rows gas y? m? (some "scatter")) ∈
        (draw_scatter_plot df gas y? m?).1) ∧
    (∀ c : Chart, Output.chart c ∈ (draw_std_co2_scatter_plot df gas y? m?).1 →
      write_story (generate_story c.rows gas y? m? (some "std_scatter")) ∈
        (draw_std_co2_scatter_plot df gas y? m?).1) := by
  refine ⟨?_, ?_, ?_⟩
  · intro c hc
    cases y? <;> cases m? <;> simp only [draw_time_series] at hc ⊢
    · have := chart_mem_pair hc
      subst this
      simp
    · simp at hc
    · split at hc <;> split <;> try simp_all
      all_goals
        rcases hc with rfl | h
        · simp
        · exact absurd h.symm (write_story_ne_chart _ _)
    · split at hc <;> split <;> try simp_all
      all_goals
        rcases hc with rfl | h
        · simp
        · exact absurd h.symm (write_story_ne_chart _ _)
  · intro c hc
    cases y? <;> cases m? <;> simp only [draw_scatter_plot] at hc ⊢
    · have := chart_mem_pair hc
      subst this
      simp
    · simp at hc
    · split at hc <;> split <;> try simp_all
      all_goals
        rcases hc with rfl | h
        · simp
        · exact absurd h.symm (write_story_ne_chart _ _)
    · split at hc <;> split <;> try simp_all
      all_goals
        rcases hc with rfl | h
        · simp
        · exact absurd h.symm (write_story_ne_chart _ _)
  · intro c hc
    cases y? <;> cases m? <;> simp only [draw_std_co2_scatter_plot] at hc ⊢
    · have := chart_mem_pair hc
      subst this
      simp
    · simp at hc
    · split at hc <;> split <;> try simp_all
      all_goals
        rcases hc with rfl | h
        · simp
        · exact absurd h.symm (write_story_ne_chart _ _)
    · split at hc <;> split <;> try simp_all
      all_goals
        rcases hc with rfl | h
        · simp
        · exact absurd h.symm (write_story_ne_chart _ _)

/-- Witness for claim C2: on the sample dataset with no filters, the
time-series, scatter and std-scatter traces each contain the story
generated from their charted rows. -/
theorem claim_C2_witness :
    write_story (generate_story
        (Chart.rows ⟨ChartKind.line, cleanDf sampleDf, YCol.altMean,
          "Full Dataset: Alt_Mean Over Time"⟩) "co2" none none (some "line")) ∈
      (draw_time_series sampleDf "co2" none none).1 ∧
    write_story (generate_story
        (Chart.rows ⟨ChartKind.scatter, cleanDf sampleDf, YCol.altMean,
          "Full Dataset: Alt_Mean Over Time"⟩) "co2" none none (some "scatter")) ∈
      (draw_scatter_plot sampleDf "co2" none none).1 ∧
    write_story (generate_story
        (Chart.rows ⟨ChartKind.scatter, cleanDf sampleDf, YCol.stdCO2,
          "Full Dataset: std CO2 Over Time"⟩) "co2" none none (some "std_scatter")) ∈
      (draw_std_co2_scatter_plot sampleDf "co2" none none).1 :=
  ⟨(claim_C2_story_counts sampleDf "co2" none none).1 _ (by decide),
   (claim_C2_story_counts sampleDf "co2" none none).2.1 _ (by decide),
   (claim_C2_story_counts sampleDf "co2" none none).2.2 _ (by decide)⟩

/-- Claim C3: in every pipeline, when the selected year (with or without a
selected month) matches no row of the cleaned dataset, the trace is
exactly one user-visible warning: no chart and no story are rendered. -/
theorem claim_C3_empty_warning (df : List Row) (gas : String) (y : Int)
    (m? : Option Nat) (h : ∀ r ∈ cleanDf df, r.year ≠ some y) :
    (draw_time_series df gas (some y) m?).1 =
      [Output.warning (match m? with
        | none => "No data available for the selected year."
        | some _ => "No data available for the selected month and year.")] ∧
    (draw_scatter_plot df gas (some y) m?).1 =
      [Output.warning (match m? with
        | none => "No data available for the selected year."
        | some _ => "No data available for the selected month and year.")] ∧
    (draw_std_co2_scatter_plot df gas (some y) m?).1 =
      [Output.warning (match m? with
        | none => "No data available for the selected year."
        | some _ => "No data available for the selected month and year.")] := by
  refine ⟨?_, ?_, ?_⟩ <;>
    cases m? with
    | none =>
      simp [draw_time_series, draw_scatter_plot, draw_std_co2_scatter_plot,
        filter_year_nil h]
    | some m =>
      simp [draw_time_series, draw_scatter_plot, draw_std_co2_scatter_plot,
        filter_year_month_nil m h]

/-- Witness for claim C3: year 2014 matches no row of the sample dataset,
so selecting it together with month 3 produces exactly the warning in
each pipeline. -/
theorem claim_C3_witness :
    (draw_time_series sampleDf "co2" (some 2014) (some 3)).1 =
      [Output.warning "No data available for the selected month and year."] ∧
    (draw_scatter_plot sampleDf "co2" (some 2014) (some 3)).1 =
      [Output.warning "No data available for the selected month and year."] ∧
    (draw_std_co2_scatter_plot sampleDf "co2" (some 2014) (some 3)).1 =
      [Output.warning "No data available for the selected month and year."] :=
  claim_C3_empty_warning sampleDf "co2" 2014 (some 3) (by decide)

/-- Claim C4: in the combined year-and-month branch, the time-series
(line-chart) pipeline charts `std CO2` while the scatter pipeline still
charts `Alt_Mean` and the std-scatter pipeline still charts `std CO2`. -/
theorem claim_C4_ycol_switch (df : List Row) (gas : String) (y : Int)
    (m : Nat) :
    (∀ c : Chart,
      Output.chart c ∈ (draw_time_series df gas (some y) (some m)).1 →
        c.ycol = YCol.stdCO2) ∧
    (∀ c : Chart,
      Output.chart c ∈ (draw_scatter_plot df gas (some y) (some m)).1 →
        c.ycol = YCol.altMean) ∧
    (∀ c : Chart,
      Output.chart c ∈ (draw_std_co2_scatter_plot df gas (some y) (some m)).1 →
        c.ycol = YCol.stdCO2) := by
  refine ⟨?_, ?_, ?_⟩
  · intro c hc
    simp only [draw_time_series] at hc
    split at hc
    · have := chart_mem_pair hc
      subst this
      rfl
    · simp at hc
  · intro c hc
    simp only [draw_scatter_plot] at hc
    split at hc
    · have := chart_mem_pair hc
      subst this
      rfl
    · simp at hc
  · intro c hc
    simp only [draw_std_co2_scatter_plot] at hc
    split at hc
    · have := chart_mem_pair hc
      subst this
      rfl
    · simp at hc

/-- Witness for claim C4: on the sample dataset with year 2015 and month
1 the three pipelines chart `std CO2`, `Alt_Mean` and `std CO2`
respectively. -/
theorem claim_C4_witness :
    (⟨ChartKind.line, [⟨some ⟨2015, 1, 1⟩, 10, 2, some 2015⟩], YCol.stdCO2,
        "Standard Deviation of CO2 in 1 2015"⟩ : Chart).ycol = YCol.stdCO2 ∧
    (⟨ChartKind.scatter, [⟨some ⟨2015, 1, 1⟩, 10, 2, some 2015⟩], YCol.altMean,
        "Alt_Mean Over Time in 1 2015"⟩ : Chart).ycol = YCol.altMean ∧
    (⟨ChartKind.scatter, [⟨some ⟨2015, 1, 1⟩, 10, 2, some 2015⟩], YCol.stdCO2,
        "std CO2 Over Time in 1 2015"⟩ : Chart).ycol = YCol.stdCO2 :=
  ⟨(claim_C4_ycol_switch sampleDf "co2" 2015 1).1 _ (by decide),
   (claim_C4_ycol_switch sampleDf "co2" 2015 1).2.1 _ (by decide),
   (claim_C4_ycol_switch sampleDf "co2" 2015 1).2.2 _ (by decide)⟩

/-- Claim C5: when the gas selection is left at the placeholder, the
orchestrator shows only the informational prompt and returns — for every
filesystem content, the run's whole trace is that single message, so no
file is consulted and no pipeline runs. -/
theorem claim_C5_placeholder_info (files : String → Option (List Row))
    (gasChoice : String) (y? : Option Int) (monthChoice : String)
    (h : select_gas gasChoice = "select gas") :
    main_app files gasChoice y? monthChoice =
      [Output.info "Please select a gas to start."] := by
  simp [main_app, h]

/-- Witness for claim C5: leaving the widget at "Select Gas" yields the
informational prompt alone even on a filesystem holding the dataset. -/
theorem claim_C5_witness :
    main_app (fun _ => some sampleDf) "Select Gas" (some 2015) "Mar" =
      [Output.info "Please select a gas to start."] :=
  claim_C5_placeholder_info (fun _ => some sampleDf) "Select Gas" (some 2015)
    "Mar" (by decide)

/-- Claim C6: when the backing file `data/<gas>.csv` of a normalized
non-placeholder gas does not exist, the run's whole trace is one error
message naming the gas — no dataset is returned and no pipeline output
follows. -/
theorem claim_C6_missing_file (files : String → Option (List Row))
    (gasChoice : String) (y? : Option Int) (monthChoice : String)
    (h1 : select_gas gasChoice ≠ "select gas")
    (h2 : files ("data/" ++ select_gas gasChoice ++ ".csv") = none) :
    main_app files gasChoice y? monthChoice =
      [Output.error ("No file found for " ++ select_gas gasChoice)] := by
  simp [main_app, get_data_source, h1, h2]

/-- Witness for claim C6: choosing "CO2" over an empty filesystem yields
exactly the error naming the lowercased gas. -/
theorem claim_C6_witness :
    main_app (fun _ => none) "CO2" (some 2015) "Mar" =
      [Output.error ("No file found for " ++ select_gas "CO2")] :=
  claim_C6_missing_file (fun _ => none) "CO2" (some 2015) "Mar"
    (by decide) rfl

/-- Claim C7: month-name derivation maps each of 1..12 to the correct full
English month name; the month selector only ever produces `none` or an
integer in 1..12; and no run of the dashboard ever invokes the derivation
outside its domain (no trace contains the crash event). -/
theorem claim_C7_month_names :
    (monthName 1 = some "January" ∧ monthName 2 = some "February" ∧
     monthName 3 = some "March" ∧ monthName 4 = some "April" ∧
     monthName 5 = some "May" ∧ monthName 6 = some "June" ∧
     monthName 7 = some "July" ∧ monthName 8 = some "August" ∧
     monthName 9 = some "September" ∧ monthName 10 = some "October" ∧
     monthName 11 = some "November" ∧ monthName 12 = some "December") ∧
    (∀ choice m, select_month choice = some m → 1 ≤ m ∧ m ≤ 12) ∧
    (∀ (files : String → Option (List Row)) (gasChoice : String)
       (y? : Option Int) (monthChoice : String),
       Output.crash ∉ main_app files gasChoice y? monthChoice) :=
  ⟨by decide, select_month_range, main_no_crash⟩

/-- Witness for claim C7: the "Mar" option is a month inside 1..12, and
the concrete run over the sample dataset emits no crash. -/
theorem claim_C7_witness :
    (1 ≤ 3 ∧ 3 ≤ 12) ∧
    Output.crash ∉ main_app (fun _ => some sampleDf) "CO2" (some 2015) "Mar" :=
  ⟨claim_C7_month_names.2.1 "Mar" 3 (by decide),
   claim_C7_month_names.2.2 (fun _ => some sampleDf) "CO2" (some 2015) "Mar"⟩

/-- Claim C8: in the no-filters branch the story's first sentence
interpolates the uppercased gas name and the total row count, while the
rest of the text keeps the literal unsubstituted placeholder `{gas_name}`
where the gas name was meant to appear. -/
theorem claim_C8_story_placeholder (df : List Row) (gas : String)
    (ct : Option String) :
    generate_story df gas none none ct =
      some (("The " ++ story_type_of ct ++ " covers the full dataset with " ++
          toString df.length ++ " records for " ++ gas.toUpper ++ ". ") ++
        ("This chart provides a comprehensive overview of " ++ "{gas_name}" ++
          " concentrations over the entire recorded period, allowing us to observe both seasonal and longer-term trends.")) := by
  have hlit :
      (". This chart provides a comprehensive overview of {gas_name} concentrations over the entire recorded period, allowing us to observe both seasonal and longer-term trends." : String) =
        ". " ++ ("This chart provides a comprehensive overview of " ++ "{gas_name}" ++
          " concentrations over the entire recorded period, allowing us to observe both seasonal and longer-term trends.") := rfl
  simp only [generate_story, hlit, String.append_assoc]

/-- Claim C9: with a month selected but no year, each of the three
pipelines produces an empty trace: no chart, no story, no warning, no
message — a silent no-op. -/
theorem claim_C9_month_only_noop (df : List Row) (gas : String) (m : Nat) :
    (draw_time_series df gas none (some m)).1 = [] ∧
    (draw_scatter_plot df gas none (some m)).1 = [] ∧
    (draw_std_co2_scatter_plot df gas none (some m)).1 = [] :=
  ⟨rfl, rfl, rfl⟩

/-- Claim C10: each draw function leaves the shared dataframe cleaned and
extended — whatever the selection, the frame handed back to the caller is
`cleanDf` of the input (dates coerced, unparseable rows dropped, `year`
column added), and cleaning is idempotent, so the second and third
pipelines in `main_app` receive the frame already cleaned by the first
and their own cleaning pass changes nothing; the filtered subsets are
derived values that never alter the frame. -/
theorem claim_C10_inplace_clean (df : List Row) (gas : String)
    (y? : Option Int) (m? : Option Nat) :
    (draw_time_series df gas y? m?).2 = cleanDf df ∧
    (draw_scatter_plot df gas y? m?).2 = cleanDf df ∧
    (draw_std_co2_scatter_plot df gas y? m?).2 = cleanDf df ∧
    cleanDf (cleanDf df) = cleanDf df := by
  refine ⟨?_, ?_, ?_, cleanDf_idem df⟩
  · cases y? <;> cases m? <;> simp only [draw_time_series] <;>
      first
      | rfl
      | (split <;> rfl)
  · cases y? <;> cases m? <;> simp only [draw_scatter_plot] <;>
      first
      | rfl
      | (split <;> rfl)
  · cases y? <;> cases m? <;> simp only [draw_std_co2_scatter_plot] <;>
      first
      | rfl
      | (split <;> rfl)
